import Mathlib

/-!
Verification of the distant_reading repository: a shallow embedding of the
text-analysis data model and of the visualization layer (`app.js`), together
with theorems settling the specified properties.

The repository ships only the visualization layer as source; the analysis
pipeline (`analyze_texts.py`) is referenced by the build documentation but is
not part of the source tree, so the producer-side components (sentiment
scorer, style metrics calculator, distinctive-vocabulary extractor, thematic
lexicon matcher) are modelled from the specification and marked as such in
their doc comments.  The consumer-side definitions are translated from
`app.js`.
-/

namespace DistantReading

/-! ## Sentiment scores (spec §3, §4.3) -/

/-- A sentiment score: `{positive, negative, neutral, compound}`, rationals
standing for the bounded reals of the spec. -/
structure SentimentScore where
  positive : ℚ
  negative : ℚ
  neutral : ℚ
  compound : ℚ
deriving DecidableEq, Repr

/-- The neutral default score carried by empty arc segments
(positive=0, negative=0, neutral=1, compound=0). -/
def neutralScore : SentimentScore :=
  { positive := 0, negative := 0, neutral := 1, compound := 0 }

/-- Modelled from the spec: the fixed lexicon of word-valence entries plus
negators and intensifiers used by the Sentiment Scorer (§4.3); the concrete
lexicon lives in `analyze_texts.py`, which is not in the source tree. -/
structure Lexicon where
  valence : List (String × ℚ)
  negators : List String
  intensifiers : List (String × ℚ)

/-- Modelled from the spec: the additive pass of the scorer (§4.3).  Walks the
token list accumulating `(positive mass, negative mass, unmatched count)`;
a negator opens a 3-token window in which matched valences are sign-flipped,
an intensifier scales the magnitude of the next matched entry, and every
token matched by no table counts as neutral. -/
def tally (lex : Lexicon) : List String → ℕ → ℚ → ℚ × ℚ × ℕ
  | [], _, _ => (0, 0, 0)
  | w :: rest, window, boost =>
    if lex.negators.contains w then
      tally lex rest 3 1
    else
      match lex.intensifiers.lookup w with
      | some f => tally lex rest (window - 1) f
      | none =>
        match lex.valence.lookup w with
        | some v =>
          let adj := (if 0 < window then -v else v) * boost
          let acc := tally lex rest (window - 1) 1
          if 0 ≤ adj then (acc.1 + adj, acc.2.1, acc.2.2)
          else (acc.1, acc.2.1 - adj, acc.2.2)
        | none =>
          let acc := tally lex rest (window - 1) 1
          (acc.1, acc.2.1, acc.2.2 + 1)

/-- Modelled from the spec: normalization step of the scorer (§4.3) — the three
components are divided by their total so that positive+negative+neutral = 1,
and the compound score is the signed polarity normalized into [-1, 1]; a
sentence with no mass at all is reported as neutral. -/
def mkScore (p n : ℚ) (u : ℕ) : SentimentScore :=
  if p + n + (u : ℚ) = 0 then neutralScore
  else
    { positive := p / (p + n + (u : ℚ))
      negative := n / (p + n + (u : ℚ))
      neutral := (u : ℚ) / (p + n + (u : ℚ))
      compound := (p - n) / (p + n + 1) }

/-- Modelled from the spec: scoring one sentence (§4.3). -/
def scoreSentence (lex : Lexicon) (toks : List String) : SentimentScore :=
  mkScore (tally lex toks 0 1).1 (tally lex toks 0 1).2.1 (tally lex toks 0 1).2.2

/-- Modelled from the spec: arithmetic mean of a list of sentiment scores
(§4.3); an empty list yields the neutral default, which is what an arc
segment covering zero sentences carries. -/
def meanScores (l : List SentimentScore) : SentimentScore :=
  if l.length = 0 then neutralScore
  else
    { positive := (l.map SentimentScore.positive).sum / (l.length : ℚ)
      negative := (l.map SentimentScore.negative).sum / (l.length : ℚ)
      neutral := (l.map SentimentScore.neutral).sum / (l.length : ℚ)
      compound := (l.map SentimentScore.compound).sum / (l.length : ℚ) }

/-- The invariant every produced SentimentScore satisfies (spec §3, §8):
components nonnegative, positive+negative+neutral = 1, compound in [-1, 1]. -/
def validScore (s : SentimentScore) : Prop :=
  0 ≤ s.positive ∧ 0 ≤ s.negative ∧ 0 ≤ s.neutral ∧
    s.positive + s.negative + s.neutral = 1 ∧ -1 ≤ s.compound ∧ s.compound ≤ 1

instance : DecidablePred validScore := fun s => by
  unfold validScore; infer_instance

/-! ## Emotional arc (spec §3, §4.3) -/

/-- An arc segment: a position label plus the segment's sentiment. -/
structure ArcSegment where
  label : String
  sentiment : SentimentScore
deriving DecidableEq, Repr

/-- Modelled from the spec: a segment's position label, e.g. "10%-20%" (§4.3). -/
def segLabel (n i : ℕ) : String :=
  toString (i * 100 / n) ++ "%-" ++ toString ((i + 1) * 100 / n) ++ "%"

/-- Modelled from the spec: the slice of the per-sentence score list covered by
segment `i` of `n` — equal-size contiguous groups, division remainder
assigned to the final group (§4.3). -/
def segmentGroup (n : ℕ) (scores : List SentimentScore) (i : ℕ) : List SentimentScore :=
  if i + 1 = n then scores.drop (i * (scores.length / n))
  else (scores.drop (i * (scores.length / n))).take (scores.length / n)

/-- Modelled from the spec: arc segmentation (§4.3) — exactly `n` segments,
each carrying the mean of its group's scores (neutral when the group is
empty). -/
def arcSegments (n : ℕ) (scores : List SentimentScore) : List ArcSegment :=
  (List.range n).map fun i =>
    { label := segLabel n i, sentiment := meanScores (segmentGroup n scores i) }

/-- The configured arc segment count (spec §6: default 10). -/
def arcSegmentCount : ℕ := 10

/-- The sentiment block of an AnalysisResult. -/
structure SentimentResult where
  overall : SentimentScore
  average : SentimentScore
  segments : List ArcSegment
deriving DecidableEq, Repr

/-- Modelled from the spec: the document-level sentiment analysis (§4.3):
`overall` rescores the whole document as one unit, `average` is the
arithmetic mean of per-sentence scores, and the segments form the
emotional arc. -/
def analyzeSentiment (lex : Lexicon) (n : ℕ) (sentences : List (List String)) :
    SentimentResult :=
  { overall := scoreSentence lex sentences.flatten
    average := meanScores (sentences.map (scoreSentence lex))
    segments := arcSegments n (sentences.map (scoreSentence lex)) }

/-! ## Bar widths computed by the consumer (`app.js` lines 120-143, 541-565) -/

/-- Width of a positive/negative/neutral sentiment bar: `x * 100` percent
(`app.js` renderTextDetails and renderEmotionalArc). -/
def barWidth (x : ℚ) : ℚ := x * 100

/-- Width of the compound bar: `((compound + 1) / 2) * 100` percent
(`app.js` renderTextDetails and renderEmotionalArc). -/
def compoundBarWidth (c : ℚ) : ℚ := (c + 1) / 2 * 100

/-! ## Style metrics (spec §3, §4.4) -/

/-- The StyleMetrics record of the spec (§3). -/
structure StyleMetrics where
  word_count : ℕ
  sentence_count : ℕ
  avg_sentence_length : ℚ
  avg_word_length : ℚ
  unique_words : ℕ
  lexical_diversity : ℚ
  type_token_ratio : ℚ
deriving DecidableEq, Repr

/-- Modelled from the spec: the Style Metrics Calculator (§4.4), a pure
function over (surviving token sequence, sentence sequence, FrequencyTable);
`analyze_texts.py` carrying it is not in the source tree.  Divisions are
guarded: 0 when the denominator count is 0; `type_token_ratio` is reported
identically to `lexical_diversity`. -/
def calculateStyleMetrics (tokens : List String) (sentences : List (List String))
    (freq : List (String × ℕ)) : StyleMetrics :=
  let wc := tokens.length
  let sc := sentences.length
  let uw := freq.length
  let ld : ℚ := if wc = 0 then 0 else (uw : ℚ) / (wc : ℚ)
  { word_count := wc
    sentence_count := sc
    avg_sentence_length := if sc = 0 then 0 else (wc : ℚ) / (sc : ℚ)
    avg_word_length :=
      if wc = 0 then 0 else (tokens.map (fun t => (t.length : ℚ))).sum / (wc : ℚ)
    unique_words := uw
    lexical_diversity := ld
    type_token_ratio := ld }

/-- The radar-chart axis data computed by the consumer
(`app.js` renderStyleChart, lines 448-453): four normalized axes, with
lexical diversity and type-token ratio plotted as two distinct axes. -/
def radarData (m : StyleMetrics) : List ℚ :=
  [m.avg_sentence_length / 30 * 100,
   m.avg_word_length / 6 * 100,
   m.lexical_diversity * 100,
   m.type_token_ratio * 100]

/-! ## Distinctive vocabulary (spec §3, §4.5) -/

/-- A distinctive-word entry: the word, its raw frequency in the text, and its
corpus-relative (TF-IDF) score. -/
structure DistinctiveEntry where
  word : String
  freq : ℕ
  score : ℚ
deriving DecidableEq, Repr

/-- The ranking order of the spec (§4.5): descending score, ties broken by
descending raw frequency and then lexicographically by word. -/
def rankLe (a b : DistinctiveEntry) : Prop :=
  b.score < a.score ∨
    (a.score = b.score ∧ (b.freq < a.freq ∨ (a.freq = b.freq ∧ a.word ≤ b.word)))

instance : DecidableRel rankLe := fun a b => by
  unfold rankLe; infer_instance

/-- The lexicographic key realizing `rankLe`: negated score, then negated
frequency, then the word itself. -/
def entryKey (e : DistinctiveEntry) : ℚ ×ₗ (ℤ ×ₗ String) :=
  toLex (-e.score, toLex (-(e.freq : ℤ), e.word))

/-- Modelled from the spec: sorting a text's scored entries by the ranking
order of §4.5. -/
def sortEntries (l : List DistinctiveEntry) : List DistinctiveEntry :=
  List.insertionSort rankLe l

/-- The configured distinctive-word count K (spec §6: default 15). -/
def distinctiveWordCount : ℕ := 15

/-- Modelled from the spec: the Distinctive Vocabulary Extractor's output for
one text (§4.5) — the top-K entries under the ranking order. -/
def distinctiveWords (K : ℕ) (entries : List DistinctiveEntry) :
    List DistinctiveEntry :=
  (sortEntries entries).take K

/-- The consumer's distinctive-word display (`app.js` renderTextDetails,
lines 196-205): the first 15 entries, in order, shown as word badges. -/
def displayedDistinctive (dw : List DistinctiveEntry) : List String :=
  (dw.take 15).map DistinctiveEntry.word

/-! ## Thematic lexicon matcher (spec §3, §4.6) and its consumer -/

/-- Per-category statistics: `{total, unique, words}` (spec §3). -/
structure CategoryStats where
  total : ℕ
  unique : ℕ
  words : List (String × ℕ)
deriving DecidableEq, Repr

/-- Modelled from the spec: the Thematic Lexicon Matcher's per-category scan
(§4.6) over the FrequencyTable — `total` sums the counts of member words
present, `unique` counts the distinct member words present, and the
per-word counts are retained. -/
def categoryStats (members : List String) (freq : List (String × ℕ)) :
    CategoryStats :=
  let present := freq.filter fun p => members.contains p.1
  { total := (present.map Prod.snd).sum
    unique := present.length
    words := present }

/-- Modelled from the spec: the matcher reports every configured category,
zero-total or not (§4.6); filtering for display is the consumer's concern. -/
def matchThematic (table : List (String × List String)) (freq : List (String × ℕ)) :
    List (String × CategoryStats) :=
  table.map fun c => (c.1, categoryStats c.2 freq)

/-- The category display order hard-coded in the consumer
(`app.js` renderRomanticVocabulary, line 488). -/
def categoryOrder : List String := ["love", "yearning", "affection", "pain", "loss"]

/-- The categories whose block the consumer renders
(`app.js` renderRomanticVocabulary, lines 499-522): a category is rendered
exactly when it is present in the record (`data`) and `data.total > 0`. -/
def renderedCategories (cats : List (String × CategoryStats)) : List String :=
  categoryOrder.filter fun c =>
    match cats.lookup c with
    | some d => decide (0 < d.total)
    | none => false

/-- The descending-count order used by the consumer's badge sort
(`app.js` renderRomanticVocabulary, line 511: `.sort((a, b) => b[1] - a[1])`). -/
def badgeSortLe (a b : String × ℕ) : Prop := b.2 ≤ a.2

instance : DecidableRel badgeSortLe := fun a b => by
  unfold badgeSortLe; infer_instance

/-- The per-word badge list the consumer displays for a rendered category
(`app.js` renderRomanticVocabulary, lines 510-512): the category's words
sorted by count descending, top 10 kept. -/
def badgeList (ws : List (String × ℕ)) : List (String × ℕ) :=
  (List.insertionSort badgeSortLe ws).take 10

/-! ## The field-name contract (spec §6) and the fields the consumer reads -/

/-- `true` when one of the two field paths extends the other — reading at
path `p` stays inside the contract entry `d` in either direction. -/
def pathMatches : List String → List String → Bool
  | [], _ => true
  | _, [] => true
  | a :: p, b :: q => a == b && pathMatches p q

/-- The stable field names and nesting of the contract, as enumerated by the
spec (§3, §6). -/
def specFieldPaths : List (List String) :=
  [["word_frequencies"],
   ["sentiment", "overall"],
   ["sentiment", "average", "positive"],
   ["sentiment", "average", "negative"],
   ["sentiment", "average", "neutral"],
   ["sentiment", "average", "compound"],
   ["style", "word_count"],
   ["style", "sentence_count"],
   ["style", "avg_sentence_length"],
   ["style", "avg_word_length"],
   ["style", "unique_words"],
   ["style", "lexical_diversity"],
   ["style", "type_token_ratio"],
   ["distinctive_words"],
   ["emotional_arc", "segments"],
   ["romantic_vocabulary", "categories"],
   ["romantic_vocabulary", "density_percentage"]]

/-- Every field path the rendering code reads off an AnalysisResult record,
collected from `app.js`: renderTextList (lines 30-38), renderComparisonCheckboxes
(lines 40-48), renderTextDetails (lines 94-220), renderWordCloud,
renderComparison (lines 269-364), renderSentimentChart, renderStyleChart,
renderRomanticVocabulary and renderEmotionalArc.  Array-element and
category-key accesses continue the path of the containing field. -/
def consumedFieldPaths : List (List String) :=
  [["title"],
   ["author"],
   ["style", "word_count"],
   ["style", "sentence_count"],
   ["style", "avg_sentence_length"],
   ["style", "avg_word_length"],
   ["style", "unique_words"],
   ["style", "lexical_diversity"],
   ["style", "type_token_ratio"],
   ["sentiment", "average", "positive"],
   ["sentiment", "average", "negative"],
   ["sentiment", "average", "neutral"],
   ["sentiment", "average", "compound"],
   ["word_frequencies"],
   ["distinctive_words"],
   ["distinctive_words", "word"],
   ["romantic_vocabulary"],
   ["romantic_vocabulary", "density_percentage"],
   ["romantic_vocabulary", "categories"],
   ["romantic_vocabulary", "categories", "total"],
   ["romantic_vocabulary", "categories", "unique"],
   ["romantic_vocabulary", "categories", "words"],
   ["emotional_arc"],
   ["emotional_arc", "segments"],
   ["emotional_arc", "segments", "label"],
   ["emotional_arc", "segments", "sentiment", "positive"],
   ["emotional_arc", "segments", "sentiment", "negative"],
   ["emotional_arc", "segments", "sentiment", "compound"]]

/-- The metadata fields of the record (`title`, `author`), read by the
rendering code but not part of the §3/§6 analysis-field enumeration. -/
def metadataFieldPaths : List (List String) := [["title"], ["author"]]

/-- A consumed path is covered by the contract when it aligns with one of the
enumerated stable field paths. -/
def coveredBySpec (p : List String) : Bool :=
  specFieldPaths.any fun d => pathMatches p d

/-! ## App initialization and error path (`app.js` lines 1-28) -/

/-- The per-text metadata the list/checkbox rendering consumes. -/
structure TextMeta where
  title : String
  author : String
deriving DecidableEq, Repr

/-- The content of the `#text-details` element, abstracted: the initial
welcome markup, the error message written by the catch handler, or the
details of a selected text. -/
inductive DetailsPane where
  | welcome : DetailsPane
  | errorMessage : DetailsPane
  | details : TextMeta → DetailsPane
deriving DecidableEq, Repr

/-- The observable state the `DOMContentLoaded` handler manipulates:
the `#text-details` content, the rendered text list, the rendered comparison
checkboxes, whether event listeners were attached, and the global
`analysisData`. -/
structure AppModel where
  textDetails : DetailsPane
  textList : Option (List TextMeta)
  checkboxes : Option (List String)
  listenersAttached : Bool
  analysisData : List TextMeta
deriving DecidableEq, Repr

/-- The state before the handler runs: welcome pane, nothing rendered, no
listeners, `analysisData = []` (`app.js` lines 1-4). -/
def initialModel : AppModel :=
  { textDetails := .welcome
    textList := none
    checkboxes := none
    listenersAttached := false
    analysisData := [] }

/-- `initializeApp` (`app.js` lines 24-28): renders the text list and the
comparison checkboxes from `analysisData` and attaches the listeners. -/
def initializeApp (m : AppModel) : AppModel :=
  { m with
    textList := some m.analysisData
    checkboxes := some (m.analysisData.map TextMeta.title)
    listenersAttached := true }

/-- The `DOMContentLoaded` handler (`app.js` lines 7-22): on a successful
fetch+parse, `analysisData` is assigned and `initializeApp` runs; if fetch or
parse throws, the catch block only replaces the `#text-details` content with
the error message. -/
def onDomContentLoaded (fetched : Except String (List TextMeta)) (m : AppModel) :
    AppModel :=
  match fetched with
  | .ok data => initializeApp { m with analysisData := data }
  | .error _ => { m with textDetails := .errorMessage }

/-! ## Comparison view (`app.js` lines 250-267) -/

/-- The state touched by `showComparison`: the selected indices (a JS `Set`
in insertion order), the loaded records, the two view visibility classes and
the rendered comparison content. -/
structure UIState where
  selected : List ℕ
  analysisData : List TextMeta
  singleHidden : Bool
  comparisonHidden : Bool
  comparisonView : Option (List (Option TextMeta))
deriving DecidableEq, Repr

/-- `showComparison` (`app.js` lines 258-267): returns with no change whenever
fewer than two texts are selected; otherwise unhides the comparison view,
hides the single view and renders the selected records. -/
def showComparison (st : UIState) : UIState :=
  if st.selected.length < 2 then st
  else
    { st with
      singleHidden := true
      comparisonHidden := false
      comparisonView := some (st.selected.map fun i => st.analysisData[i]?) }

/-- The compare button's observable state. -/
structure CompareButton where
  disabled : Bool
  label : String
deriving DecidableEq, Repr

/-- `updateCompareButton` (`app.js` lines 250-256): the button is disabled
exactly when fewer than two texts are selected. -/
def updateCompareButton (selected : List ℕ) : CompareButton :=
  { disabled := selected.length < 2
    label :=
      if selected.length = 0 then "Compare Selected"
      else "Compare " ++ toString selected.length ++ " Texts" }

/-! ## Sentiment invariant lemmas -/

/-- The positive and negative masses accumulated by `tally` are nonnegative. -/
theorem tally_nonneg (lex : Lexicon) (toks : List String) :
    ∀ (window : ℕ) (boost : ℚ),
      0 ≤ (tally lex toks window boost).1 ∧ 0 ≤ (tally lex toks window boost).2.1 := by
  induction toks with
  | nil => intro window boost; simp [tally]
  | cons w rest ih =>
    intro window boost
    simp only [tally]
    split
    · exact ih 3 1
    · split
      · exact ih _ _
      · split
        · rename_i v hv
          have h := ih (window - 1) 1
          rcases le_or_lt 0 ((if 0 < window then -v else v) * boost) with hadj | hadj
          · rw [if_pos hadj]
            refine ⟨?_, h.2⟩
            show 0 ≤ (tally lex rest (window - 1) 1).1 + (if 0 < window then -v else v) * boost
            linarith [h.1]
          · rw [if_neg (not_le.mpr hadj)]
            refine ⟨h.1, ?_⟩
            show 0 ≤ (tally lex rest (window - 1) 1).2.1 - (if 0 < window then -v else v) * boost
            linarith [h.2]
        · have h := ih (window - 1) 1
          exact ⟨h.1, by simpa using h.2⟩

/-- The neutral default score satisfies the sentiment invariant. -/
theorem validScore_neutral : validScore neutralScore := by
  unfold validScore neutralScore
  norm_num

/-- Normalization always produces a score satisfying the invariant, given
nonnegative masses. -/
theorem validScore_mkScore (p n : ℚ) (u : ℕ) (hp : 0 ≤ p) (hn : 0 ≤ n) :
    validScore (mkScore p n u) := by
  unfold mkScore
  split
  · exact validScore_neutral
  · rename_i h
    have hu : (0 : ℚ) ≤ (u : ℚ) := Nat.cast_nonneg u
    have htot : 0 < p + n + (u : ℚ) := lt_of_le_of_ne (by positivity) (Ne.symm h)
    have hd : 0 < p + n + 1 := by linarith
    refine ⟨div_nonneg hp htot.le, div_nonneg hn htot.le, div_nonneg hu htot.le, ?_, ?_, ?_⟩
    · rw [div_add_div_same, div_add_div_same, div_self htot.ne']
    · rw [le_div_iff₀ hd]; linarith
    · rw [div_le_one hd]; linarith

/-- Every per-sentence score produced by the scorer satisfies the invariant. -/
theorem validScore_scoreSentence (lex : Lexicon) (toks : List String) :
    validScore (scoreSentence lex toks) :=
  validScore_mkScore _ _ _ (tally_nonneg lex toks 0 1).1 (tally_nonneg lex toks 0 1).2

/-- The three component sums of a list of valid scores add up to its length. -/
theorem sum_components_eq_length (l : List SentimentScore)
    (h : ∀ s ∈ l, validScore s) :
    (l.map SentimentScore.positive).sum + (l.map SentimentScore.negative).sum +
      (l.map SentimentScore.neutral).sum = (l.length : ℚ) := by
  induction l with
  | nil => simp
  | cons s t ih =>
    have hv := h s (List.mem_cons_self s t)
    have ht := ih fun x hx => h x (List.mem_cons_of_mem s hx)
    simp only [List.map_cons, List.sum_cons, List.length_cons]
    push_cast
    obtain ⟨_, _, _, hsum, _, _⟩ := hv
    linarith

/-- The compound sum of a list of valid scores is bounded by the length. -/
theorem sum_compound_bounds (l : List SentimentScore)
    (h : ∀ s ∈ l, validScore s) :
    -(l.length : ℚ) ≤ (l.map SentimentScore.compound).sum ∧
      (l.map SentimentScore.compound).sum ≤ (l.length : ℚ) := by
  induction l with
  | nil => simp
  | cons s t ih =>
    have hv := h s (List.mem_cons_self s t)
    have ht := ih fun x hx => h x (List.mem_cons_of_mem s hx)
    simp only [List.map_cons, List.sum_cons, List.length_cons]
    push_cast
    obtain ⟨_, _, _, _, hc1, hc2⟩ := hv
    exact ⟨by linarith [ht.1], by linarith [ht.2]⟩

/-- The arithmetic mean of valid scores is a valid score (and so is the
neutral default taken when the list is empty). -/
theorem validScore_meanScores (l : List SentimentScore)
    (h : ∀ s ∈ l, validScore s) : validScore (meanScores l) := by
  unfold meanScores
  split
  · exact validScore_neutral
  · rename_i hlen
    have hl : 0 < (l.length : ℚ) := by
      exact_mod_cast Nat.pos_of_ne_zero hlen
    have hpos : 0 ≤ (l.map SentimentScore.positive).sum :=
      List.sum_nonneg fun x hx => by
        obtain ⟨s, hs, rfl⟩ := List.mem_map.mp hx
        exact (h s hs).1
    have hneg : 0 ≤ (l.map SentimentScore.negative).sum :=
      List.sum_nonneg fun x hx => by
        obtain ⟨s, hs, rfl⟩ := List.mem_map.mp hx
        exact (h s hs).2.1
    have hneu : 0 ≤ (l.map SentimentScore.neutral).sum :=
      List.sum_nonneg fun x hx => by
        obtain ⟨s, hs, rfl⟩ := List.mem_map.mp hx
        exact (h s hs).2.2.1
    have hcomp := sum_compound_bounds l h
    refine ⟨div_nonneg hpos hl.le, div_nonneg hneg hl.le, div_nonneg hneu hl.le, ?_, ?_, ?_⟩
    · rw [div_add_div_same, div_add_div_same, sum_components_eq_length l h,
        div_self hl.ne']
    · rw [le_div_iff₀ hl]; linarith [hcomp.1]
    · rw [div_le_one hl]; exact hcomp.2

/-- C2: every SentimentScore produced by the scorer — per sentence, per
segment, as document average and as overall score — has nonnegative
components with positive + negative + neutral = 1 (exactly, in ℚ) and
compound in [-1, 1]; and under this invariant every bar width the consumer
computes (`x * 100` and `((compound + 1) / 2) * 100`) lies in [0, 100]. -/
theorem sentiment_invariant_and_bar_widths (lex : Lexicon) (n : ℕ)
    (sentences : List (List String)) :
    (∀ toks : List String, validScore (scoreSentence lex toks)) ∧
    validScore (analyzeSentiment lex n sentences).overall ∧
    validScore (analyzeSentiment lex n sentences).average ∧
    (∀ seg ∈ (analyzeSentiment lex n sentences).segments, validScore seg.sentiment) ∧
    (∀ s : SentimentScore, validScore s →
      (0 ≤ barWidth s.positive ∧ barWidth s.positive ≤ 100) ∧
      (0 ≤ barWidth s.negative ∧ barWidth s.negative ≤ 100) ∧
      (0 ≤ barWidth s.neutral ∧ barWidth s.neutral ≤ 100) ∧
      (0 ≤ compoundBarWidth s.compound ∧ compoundBarWidth s.compound ≤ 100)) := by
  have hsentence : ∀ l : List (List String), ∀ x ∈ l.map (scoreSentence lex), validScore x := by
    intro l x hx
    obtain ⟨toks, _, rfl⟩ := List.mem_map.mp hx
    exact validScore_scoreSentence lex toks
  refine ⟨validScore_scoreSentence lex, validScore_scoreSentence lex _, ?_, ?_, ?_⟩
  · exact validScore_meanScores _ (hsentence sentences)
  · intro seg hseg
    simp only [analyzeSentiment, arcSegments, List.mem_map, List.mem_range] at hseg
    obtain ⟨i, _, rfl⟩ := hseg
    refine validScore_meanScores _ fun s hs => ?_
    have hmem : s ∈ (sentences.map (scoreSentence lex)) := by
      unfold segmentGroup at hs
      split at hs
      · exact List.mem_of_mem_drop hs
      · exact List.mem_of_mem_drop (List.mem_of_mem_take hs)
    exact hsentence sentences s hmem
  · intro s hs
    obtain ⟨h1, h2, h3, h4, h5, h6⟩ := hs
    unfold barWidth compoundBarWidth
    refine ⟨⟨by linarith, by linarith⟩, ⟨by linarith, by linarith⟩,
      ⟨by linarith, by linarith⟩, ⟨by linarith, by linarith⟩⟩

/-- Witness for C2 at a concrete input: the neutral default score is valid
and its compound bar width is in range. -/
theorem sentiment_invariant_and_bar_widths_witness :
    validScore neutralScore ∧
    0 ≤ compoundBarWidth neutralScore.compound ∧
      compoundBarWidth neutralScore.compound ≤ 100 := by
  have h := sentiment_invariant_and_bar_widths ⟨[], [], []⟩ 10 [["evening"]]
  have hv : validScore neutralScore := by
    unfold validScore neutralScore; norm_num
  exact ⟨hv, (h.2.2.2.2 neutralScore hv).2.2.2.1, (h.2.2.2.2 neutralScore hv).2.2.2.2⟩

/-- C3: the emotional arc has exactly the configured number of segments
(default 10) for every document length, and any segment covering zero
sentences carries the neutral default score positive=0, negative=0,
neutral=1, compound=0. -/
theorem arc_segment_count_and_neutral_defaults (n : ℕ) (scores : List SentimentScore) :
    (arcSegments n scores).length = n ∧
    arcSegmentCount = 10 ∧
    (∀ i, i < n → segmentGroup n scores i = [] →
      (arcSegments n scores)[i]? =
        some { label := segLabel n i, sentiment := neutralScore }) ∧
    (∀ (lex : Lexicon) (sentences : List (List String)),
      ((analyzeSentiment lex n sentences).segments).length = n) := by
  refine ⟨by simp [arcSegments], rfl, ?_, ?_⟩
  · intro i hi hempty
    simp only [arcSegments, List.getElem?_map, List.getElem?_range hi, Option.map_some',
      hempty, meanScores, List.length_nil]
    rfl
  · intro lex sentences
    simp [analyzeSentiment, arcSegments]

/-- Witness for C3: a 3-sentence document against the 10-segment default
still yields exactly 10 segments, and its first segment (which covers zero
sentences) carries the neutral default. -/
theorem arc_segment_count_and_neutral_defaults_witness :
    (arcSegments 10 [neutralScore, neutralScore, neutralScore]).length = 10 ∧
    (arcSegments 10 [neutralScore, neutralScore, neutralScore])[0]? =
      some { label := segLabel 10 0, sentiment := neutralScore } :=
  ⟨(arc_segment_count_and_neutral_defaults 10 _).1,
   (arc_segment_count_and_neutral_defaults 10 _).2.2.1 0 (by decide) (by decide)⟩

/-- C8: the Style Metrics Calculator guards both divisions — a zero sentence
count yields avg_sentence_length = 0, a zero word count yields
lexical_diversity = 0 (and avg_word_length = 0), and an empty body yields
style metrics all zero rather than a division error. -/
theorem style_metrics_divide_by_zero_guards (tokens : List String)
    (sentences : List (List String)) (freq : List (String × ℕ)) :
    (sentences.length = 0 →
      (calculateStyleMetrics tokens sentences freq).avg_sentence_length = 0) ∧
    (tokens.length = 0 →
      (calculateStyleMetrics tokens sentences freq).lexical_diversity = 0) ∧
    (tokens.length = 0 →
      (calculateStyleMetrics tokens sentences freq).avg_word_length = 0) ∧
    calculateStyleMetrics [] [] [] =
      { word_count := 0, sentence_count := 0, avg_sentence_length := 0,
        avg_word_length := 0, unique_words := 0, lexical_diversity := 0,
        type_token_ratio := 0 } := by
  refine ⟨fun h => ?_, fun h => ?_, fun h => ?_, ?_⟩
  · simp [calculateStyleMetrics, h]
  · simp [calculateStyleMetrics, h]
  · simp [calculateStyleMetrics, h]
  · rfl

/-- Witness for C8 at the empty text: both guard hypotheses hold and both
guarded metrics evaluate to zero. -/
theorem style_metrics_divide_by_zero_guards_witness :
    (calculateStyleMetrics [] [] []).avg_sentence_length = 0 ∧
    (calculateStyleMetrics [] [] []).lexical_diversity = 0 :=
  ⟨(style_metrics_divide_by_zero_guards [] [] []).1 rfl,
   (style_metrics_divide_by_zero_guards [] [] []).2.1 rfl⟩

/-- C7: style.type_token_ratio always equals style.lexical_diversity — the
identical value under a second field name — while the consumer's radar chart
plots the two fields as two distinct axes (indices 2 and 3 of the dataset). -/
theorem type_token_ratio_equals_lexical_diversity (tokens : List String)
    (sentences : List (List String)) (freq : List (String × ℕ)) :
    (calculateStyleMetrics tokens sentences freq).type_token_ratio =
      (calculateStyleMetrics tokens sentences freq).lexical_diversity ∧
    (∀ m : StyleMetrics, (radarData m).length = 4 ∧
      (radarData m)[2]? = some (m.lexical_diversity * 100) ∧
      (radarData m)[3]? = some (m.type_token_ratio * 100)) := by
  exact ⟨rfl, fun m => ⟨rfl, rfl, rfl⟩⟩

/-! ## Distinctive-word ranking lemmas -/

/-- The ranking order coincides with the lexicographic order on `entryKey`. -/
theorem rankLe_iff_key (a b : DistinctiveEntry) :
    rankLe a b ↔ entryKey a ≤ entryKey b := by
  unfold rankLe entryKey
  rw [Prod.Lex.le_iff]
  simp only [Prod.Lex.le_iff, neg_lt_neg_iff, neg_inj, Nat.cast_lt, Nat.cast_inj]

instance : IsTotal DistinctiveEntry rankLe :=
  ⟨fun a b => by
    rw [rankLe_iff_key, rankLe_iff_key]
    exact le_total (entryKey a) (entryKey b)⟩

instance : IsTrans DistinctiveEntry rankLe :=
  ⟨fun a b c hab hbc => by
    rw [rankLe_iff_key] at hab hbc ⊢
    exact le_trans hab hbc⟩

/-- Entries with equal keys have equal words. -/
theorem word_eq_of_entryKey_eq {a b : DistinctiveEntry}
    (h : entryKey a = entryKey b) : a.word = b.word := by
  unfold entryKey at h
  have h1 := toLex_inj.mp h
  have h2 := toLex_inj.mp (congrArg Prod.snd h1)
  exact congrArg Prod.snd h2

/-- Mutually ranked entries have equal words: the word is the final,
injective tie-break of the ranking order. -/
theorem word_eq_of_rankLe_antisymm {a b : DistinctiveEntry}
    (h1 : rankLe a b) (h2 : rankLe b a) : a.word = b.word :=
  word_eq_of_entryKey_eq
    (le_antisymm (rankLe_iff_key a b |>.mp h1) (rankLe_iff_key b a |>.mp h2))

/-- Two permutations of the same entries, both sorted by the ranking order,
are equal whenever the words are distinct: the tie-break makes the ranking
deterministic. -/
theorem sorted_perm_nodup_words_eq :
    ∀ l₁ l₂ : List DistinctiveEntry, l₁.Perm l₂ →
      l₁.Sorted rankLe → l₂.Sorted rankLe →
      (l₁.map DistinctiveEntry.word).Nodup → l₁ = l₂ := by
  intro l₁
  induction l₁ with
  | nil =>
    intro l₂ hp _ _ _
    exact hp.nil_eq
  | cons a t₁ ih =>
    intro l₂ hp hs₁ hs₂ hnd
    cases l₂ with
    | nil =>
      have := hp.length_eq
      simp at this
    | cons b t₂ =>
      rw [List.sorted_cons] at hs₁ hs₂
      simp only [List.map_cons, List.nodup_cons] at hnd
      have hab : a = b := by
        have ha2 : a ∈ b :: t₂ := hp.mem_iff.mp (List.mem_cons_self a t₁)
        rcases List.mem_cons.mp ha2 with h | h
        · exact h
        · have hba : rankLe b a := hs₂.1 a h
          have hb1 : b ∈ a :: t₁ := hp.symm.mem_iff.mp (List.mem_cons_self b t₂)
          rcases List.mem_cons.mp hb1 with h' | h'
          · exact h'.symm
          · have hab' : rankLe a b := hs₁.1 b h'
            have hw : a.word = b.word := word_eq_of_rankLe_antisymm hab' hba
            exact absurd (hw ▸ List.mem_map_of_mem DistinctiveEntry.word h') hnd.1
      subst hab
      rw [ih t₂ hp.cons_inv hs₁.2 hs₂.2 hnd.2]

/-- C4: distinctive_words is an ordered list of at most K entries (default
K = 15), sorted by descending score with ties broken by descending raw
frequency and then lexicographically by word; the ranking is deterministic
under permutation of the scored entries, and the consumer displays exactly
the first (at most 15) entries in that order. -/
theorem distinctive_words_ranked_topK (K : ℕ) (entries : List DistinctiveEntry) :
    (distinctiveWords K entries).length ≤ K ∧
    (distinctiveWords K entries).Sorted rankLe ∧
    distinctiveWords K entries ++ (sortEntries entries).drop K = sortEntries entries ∧
    (sortEntries entries).Perm entries ∧
    (∀ e ∈ distinctiveWords K entries, e ∈ entries) ∧
    displayedDistinctive (distinctiveWords distinctiveWordCount entries) =
      (distinctiveWords distinctiveWordCount entries).map DistinctiveEntry.word ∧
    (displayedDistinctive (distinctiveWords K entries)).length ≤ 15 ∧
    (∀ entries₂ : List DistinctiveEntry, entries.Perm entries₂ →
      (entries.map DistinctiveEntry.word).Nodup →
      distinctiveWords K entries = distinctiveWords K entries₂) := by
  have hperm : (sortEntries entries).Perm entries :=
    List.perm_insertionSort rankLe entries
  have hsorted : (sortEntries entries).Sorted rankLe :=
    List.sorted_insertionSort rankLe entries
  refine ⟨?_, ?_, ?_, hperm, ?_, ?_, ?_, ?_⟩
  · simp [distinctiveWords, List.length_take]
  · exact List.Pairwise.sublist (List.take_sublist K _) hsorted
  · exact List.take_append_drop K (sortEntries entries)
  · intro e he
    exact hperm.subset ((List.take_sublist K _).subset he)
  · simp [displayedDistinctive, distinctiveWords, distinctiveWordCount, List.take_take]
  · simp only [displayedDistinctive, List.length_map, List.length_take]
    omega
  · intro entries₂ hp hnd
    unfold distinctiveWords
    have hperm₂ : (sortEntries entries₂).Perm entries₂ :=
      List.perm_insertionSort rankLe entries₂
    have hsorted₂ : (sortEntries entries₂).Sorted rankLe :=
      List.sorted_insertionSort rankLe entries₂
    have hndsort : ((sortEntries entries).map DistinctiveEntry.word).Nodup :=
      ((hperm.map DistinctiveEntry.word).nodup_iff).mpr hnd
    rw [sorted_perm_nodup_words_eq (sortEntries entries) (sortEntries entries₂)
      (hperm.trans (hp.trans hperm₂.symm)) hsorted hsorted₂ hndsort]

/-- Witness for C4: a concrete two-entry list, permuted, yields the same
ranking, and a concrete entry of the top-K list is an input entry. -/
theorem distinctive_words_ranked_topK_witness :
    distinctiveWords 15
        [{ word := "rose", freq := 3, score := 2 }, { word := "ash", freq := 5, score := 2 }] =
      distinctiveWords 15
        [{ word := "ash", freq := 5, score := 2 }, { word := "rose", freq := 3, score := 2 }] ∧
    ({ word := "ash", freq := 5, score := 2 } : DistinctiveEntry) ∈
      ([{ word := "rose", freq := 3, score := 2 }, { word := "ash", freq := 5, score := 2 }] :
        List DistinctiveEntry) :=
  ⟨(distinctive_words_ranked_topK 15 _).2.2.2.2.2.2.2 _ (by decide) (by decide),
   (distinctive_words_ranked_topK 15
      [{ word := "rose", freq := 3, score := 2 }, { word := "ash", freq := 5, score := 2 }]).2.2.2.2.1
      { word := "ash", freq := 5, score := 2 } (by decide)⟩

/-- C5: the Thematic Lexicon Matcher reports every configured category —
the output's category names are exactly the configured table's names, so a
zero-total category is retained — while the consumer renders a category's
block exactly when the category is present in the record and its total is
greater than 0. -/
theorem thematic_categories_reported_and_filtered
    (table : List (String × List String)) (freq : List (String × ℕ)) :
    (matchThematic table freq).map Prod.fst = table.map Prod.fst ∧
    (∀ c members, (c, members) ∈ table →
      (c, categoryStats members freq) ∈ matchThematic table freq) ∧
    (∀ (cats : List (String × CategoryStats)) (c : String),
      c ∈ renderedCategories cats ↔
        c ∈ categoryOrder ∧ ∃ d, cats.lookup c = some d ∧ 0 < d.total) := by
  refine ⟨?_, ?_, ?_⟩
  · simp [matchThematic, List.map_map, Function.comp]
  · intro c members hm
    exact List.mem_map.mpr ⟨(c, members), hm, rfl⟩
  · intro cats c
    unfold renderedCategories
    rw [List.mem_filter]
    constructor
    · rintro ⟨hmem, hcond⟩
      refine ⟨hmem, ?_⟩
      cases hl : cats.lookup c with
      | none => rw [hl] at hcond; exact absurd hcond (by simp)
      | some d =>
        rw [hl] at hcond
        exact ⟨d, rfl, of_decide_eq_true hcond⟩
    · rintro ⟨hmem, d, hl, hd⟩
      exact ⟨hmem, by rw [hl]; exact decide_eq_true hd⟩

/-- Witness for C5: with a one-category table and an empty frequency table the
zero-total category is still reported, and a concrete category with positive
total is rendered by the consumer. -/
theorem thematic_categories_reported_and_filtered_witness :
    ("love", categoryStats ["love"] []) ∈ matchThematic [("love", ["love"])] [] ∧
    "love" ∈ renderedCategories
        [("love", { total := 2, unique := 1, words := [("love", 2)] })] :=
  ⟨(thematic_categories_reported_and_filtered [("love", ["love"])] []).2.1
      "love" ["love"] (by decide),
   ((thematic_categories_reported_and_filtered [] []).2.2
      [("love", { total := 2, unique := 1, words := [("love", 2)] })] "love").mpr
      ⟨by decide, { total := 2, unique := 1, words := [("love", 2)] }, by decide, by decide⟩⟩

/-! ## Badge-list lemmas (consumer of C6) -/

instance : IsTotal (String × ℕ) badgeSortLe :=
  ⟨fun a b => le_total b.2 a.2⟩

instance : IsTrans (String × ℕ) badgeSortLe :=
  ⟨fun _ _ _ h1 h2 => le_trans h2 h1⟩

/-- C6: for every rendered category the badge list is a length-≤10 prefix of
the category's words sorted by descending count: it has at most 10 entries,
is sorted by count descending, is a prefix of the full descending sort
(which is a permutation of the words map), and shows only word/count pairs
from the words map. -/
theorem badge_list_top_ten (ws : List (String × ℕ)) :
    (badgeList ws).length ≤ 10 ∧
    (badgeList ws).Sorted badgeSortLe ∧
    badgeList ws ++ (List.insertionSort badgeSortLe ws).drop 10 =
      List.insertionSort badgeSortLe ws ∧
    (List.insertionSort badgeSortLe ws).Perm ws ∧
    (∀ p ∈ badgeList ws, p ∈ ws) := by
  have hperm : (List.insertionSort badgeSortLe ws).Perm ws :=
    List.perm_insertionSort badgeSortLe ws
  refine ⟨?_, ?_, ?_, hperm, ?_⟩
  · simp [badgeList, List.length_take]
  · exact List.Pairwise.sublist (List.take_sublist 10 _)
      (List.sorted_insertionSort badgeSortLe ws)
  · exact List.take_append_drop 10 _
  · intro p hp
    exact hperm.subset ((List.take_sublist 10 _).subset hp)

/-- Witness for C6 at a concrete words map: the higher-count pair is a badge
drawn from the map. -/
theorem badge_list_top_ten_witness :
    (badgeList [("love", 3), ("heart", 7)]).length ≤ 10 ∧
    ("heart", 7) ∈ ([("love", 3), ("heart", 7)] : List (String × ℕ)) :=
  ⟨(badge_list_top_ten [("love", 3), ("heart", 7)]).1,
   (badge_list_top_ten [("love", 3), ("heart", 7)]).2.2.2.2 ("heart", 7) (by decide)⟩

/-- C1, counterexample: the rendering code reads the `title` field
(`app.js` renderTextList line 34, renderTextDetails line 99, and others),
which is not among the field names enumerated in §3, so not every field the
rendering code reads is one of the enumerated names. -/
theorem render_reads_metadata_outside_contract :
    ["title"] ∈ consumedFieldPaths ∧ coveredBySpec ["title"] = false := by
  decide

/-- C1, amended: every field path the rendering code reads is either covered
by the stable field names enumerated in §3 (with their nesting) or is one of
the record's two metadata fields `title` and `author`. -/
theorem render_reads_within_contract_or_metadata :
    ∀ p ∈ consumedFieldPaths, coveredBySpec p = true ∨ p ∈ metadataFieldPaths := by
  decide

/-- Witness for the amended C1 at a concrete consumed path. -/
theorem render_reads_within_contract_or_metadata_witness :
    coveredBySpec ["style", "word_count"] = true ∨
      ["style", "word_count"] ∈ metadataFieldPaths :=
  render_reads_within_contract_or_metadata ["style", "word_count"] (by decide)

/-- C9: if fetching or parsing analysis_results.json throws, the handler only
replaces the `#text-details` content with the error message — starting from
the initial state, `analysisData` remains empty, the text list and the
comparison checkboxes are never rendered, and no event listeners are
attached. -/
theorem fetch_error_leaves_app_uninitialized (e : String) (m : AppModel) :
    onDomContentLoaded (.error e) m = { m with textDetails := .errorMessage } ∧
    (onDomContentLoaded (.error e) initialModel).analysisData = [] ∧
    (onDomContentLoaded (.error e) initialModel).textList = none ∧
    (onDomContentLoaded (.error e) initialModel).checkboxes = none ∧
    (onDomContentLoaded (.error e) initialModel).listenersAttached = false ∧
    (onDomContentLoaded (.error e) initialModel).textDetails = .errorMessage :=
  ⟨rfl, rfl, rfl, rfl, rfl, rfl⟩

/-- C10: showComparison changes nothing whenever fewer than two texts are
selected, renders the comparison view when at least two are selected, and
updateCompareButton disables the compare button exactly when fewer than two
texts are selected. -/
theorem comparison_requires_two_selected :
    (∀ st : UIState, st.selected.length < 2 → showComparison st = st) ∧
    (∀ st : UIState, 2 ≤ st.selected.length →
      (showComparison st).singleHidden = true ∧
      (showComparison st).comparisonHidden = false ∧
      (showComparison st).comparisonView =
        some (st.selected.map fun i => st.analysisData[i]?)) ∧
    (∀ selected : List ℕ,
      (updateCompareButton selected).disabled = true ↔ selected.length < 2) := by
  refine ⟨?_, ?_, ?_⟩
  · intro st h
    simp [showComparison, h]
  · intro st h
    simp [showComparison, Nat.not_lt.mpr h]
  · intro selected
    simp [updateCompareButton]

/-- Witness for C10: with a single selected text, showComparison leaves the
state unchanged and the compare button is disabled. -/
theorem comparison_requires_two_selected_witness :
    showComparison
        { selected := [0], analysisData := [], singleHidden := false,
          comparisonHidden := true, comparisonView := none } =
      { selected := [0], analysisData := [], singleHidden := false,
        comparisonHidden := true, comparisonView := none } ∧
    (updateCompareButton [0]).disabled = true :=
  ⟨comparison_requires_two_selected.1 _ (by decide),
   (comparison_requires_two_selected.2.2 [0]).mpr (by decide)⟩

end DistantReading
